import Mathlib

/-!
Verification development for a minimal session-authenticated login API
(`src/app/main.py`).  The user store is a JSON-loaded list of dictionaries
with keys `id`, `username`, `password` (the bcrypt hash), `nombre`, `email`,
`role`.  Four handlers (`login`, `logout`, `me`, `list_users`) read the
store, read/write the cookie session, and never mutate the store.  We embed
the store as a list of records, the session as a partial map from keys to
strings, and each handler as a state-passing function returning the HTTP
response together with the (possibly updated) store and session.  The bcrypt
comparison is an external library call; it enters the base embedding as an
abstract boolean function `verify` taking the optional request password
(Python `data.get("password")` may be `None`) and the stored hash, and the
refined `loginExc` additionally models that passlib raises `TypeError` when
the secret is `None`.
-/

namespace LoginApp

/-- A user record as stored in `usuarios.json`: the dictionaries produced by
`create_users.py` have exactly the keys `id`, `username`, `password`,
`nombre`, `email`, `role`, in that insertion order. -/
structure UserRecord where
  id : String
  username : String
  password : String
  nombre : String
  email : String
  role : String
deriving DecidableEq, Repr

/-- The `items()` view of a record dictionary, in Python insertion order. -/
def items (u : UserRecord) : List (String × String) :=
  [("id", u.id), ("username", u.username), ("password", u.password),
   ("nombre", u.nombre), ("email", u.email), ("role", u.role)]

/-- The dict comprehension `\x7bk: v for k, v in u.items() if k != "password"\x7d`
used by `me` (line 152) and `list_users` (line 183). -/
def safeItems (u : UserRecord) : List (String × String) :=
  (items u).filter (fun kv => kv.1 != "password")

/-- The cookie session: a key-value store read with `.get` (missing key gives
`None`, i.e. `none`). -/
def Session : Type := String → Option String

/-- Python `session[k] = v` (dict assignment: add or overwrite the key). -/
def sset (s : Session) (k v : String) : Session :=
  fun k2 => if k2 = k then some v else s k2

/-- Python `session.clear()`: every key is removed. -/
def sclear : Session := fun _ => none

/-- The empty session a first-time client carries. -/
def emptySession : Session := fun _ => none

/-- Python truthiness of an optional string: `None` and `""` are falsy, any
other string is truthy (used by `if not user_id` in `me` and `list_users`). -/
def truthy : Option String → Bool
  | none => false
  | some s => s != ""

/-- A response: body plus HTTP status code.  All bodies in `main.py` are
either a single JSON object of string fields or an array of such objects. -/
inductive Body where
  | obj : List (String × String) → Body
  | arr : List (List (String × String)) → Body
deriving DecidableEq, Repr

/-- A Litestar `Response(body, status_code)`; the default status is 200. -/
structure Response where
  body : Body
  status : Nat
deriving DecidableEq, Repr

/-- Lines 40-54: linear scan returning the first record whose `username`
equals the argument.  The argument comes from `data.get("username")`, so it
may be `None`; Python `u["username"] == None` is `False` for every record. -/
def find_user_by_username (users : List UserRecord) (username : Option String) :
    Option UserRecord :=
  users.find? (fun u => some u.username == username)

/-- Lines 57-80: the visibility policy.  Branches in source order: `admin`
sees the whole store, `supervisor` sees every record whose role is not
`admin`, anyone else sees only the records carrying their own `id`. -/
def filter_users_for_role (users : List UserRecord) (auth_user : UserRecord) :
    List UserRecord :=
  if auth_user.role = "admin" then
    users
  else if auth_user.role = "supervisor" then
    users.filter (fun u => u.role != "admin")
  else
    users.filter (fun u => u.id == auth_user.id)

/-- The literal 401 body of `login` (line 108). -/
def invalidCredentials : Body := Body.obj [("error", "Credenciales inválidas")]

/-- The literal 401 body for a missing/falsy session id (lines 144, 172). -/
def noAutenticado : Body := Body.obj [("error", "No autenticado")]

/-- The literal 401 body for a dangling session id (lines 149, 177). -/
def usuarioNoEncontrado : Body := Body.obj [("error", "Usuario no encontrado")]

/-- Lines 85-114: `POST /api/login`.  Extracts `username` and `password`
with `.get`, looks the username up, and returns 401 with the single shared
error body if the user is absent or `verify` rejects the password against the
stored hash (`if not user or not bcrypt.verify(password, user["password"])`,
short-circuiting, so `verify` only runs when the lookup succeeded).  On
success it writes `user["id"]` into the session under `user_id` and returns
200 with the message and the user's role.  The store is untouched. -/
def login (verify : Option String → String → Bool) (users : List UserRecord)
    (data : String → Option String) (session : Session) :
    Response × List UserRecord × Session :=
  let username := data "username"
  let password := data "password"
  match find_user_by_username users username with
  | none => (Response.mk invalidCredentials 401, users, session)
  | some user =>
    if verify password user.password then
      (Response.mk (Body.obj [("message", "Login exitoso"), ("role", user.role)]) 200,
        users, sset session "user_id" user.id)
    else
      (Response.mk invalidCredentials 401, users, session)

/-- Lines 117-125: `POST /api/logout` clears the whole session and returns
200 unconditionally. -/
def logout (users : List UserRecord) (_session : Session) :
    Response × List UserRecord × Session :=
  (Response.mk (Body.obj [("message", "Logout exitoso")]) 200, users, sclear)

/-- Lines 128-153: `GET /api/me`.  Returns 401 `noAutenticado` when the
session's `user_id` is falsy, 401 `usuarioNoEncontrado` when it does not
resolve in the store (`next((u for u in USERS if u["id"] == user_id), None)`),
and otherwise 200 with the record's items minus the `password` key. -/
def me (users : List UserRecord) (session : Session) :
    Response × List UserRecord × Session :=
  let user_id := session "user_id"
  if truthy user_id then
    match users.find? (fun u => some u.id == user_id) with
    | none => (Response.mk usuarioNoEncontrado 401, users, session)
    | some user => (Response.mk (Body.obj (safeItems user)) 200, users, session)
  else
    (Response.mk noAutenticado 401, users, session)

/-- Lines 156-184: `GET /api/users`.  Same principal resolution as `me`;
on success it applies `filter_users_for_role` and returns the filtered
records, each stripped of the `password` key, in store order. -/
def list_users (users : List UserRecord) (session : Session) :
    Response × List UserRecord × Session :=
  let user_id := session "user_id"
  if truthy user_id then
    match users.find? (fun u => some u.id == user_id) with
    | none => (Response.mk usuarioNoEncontrado 401, users, session)
    | some auth_user =>
      (Response.mk (Body.arr ((filter_users_for_role users auth_user).map safeItems)) 200,
        users, session)
  else
    (Response.mk noAutenticado 401, users, session)

/-- Spec invariant (§3): usernames are unique across the store. -/
def usernamesUnique (users : List UserRecord) : Prop :=
  users.Pairwise (fun a b => a.username ≠ b.username)

instance (users : List UserRecord) : Decidable (usernamesUnique users) := by
  unfold usernamesUnique
  infer_instance

/-- A login request body carrying exactly a username and a password. -/
def mkBody (u p : String) : String → Option String :=
  fun k => if k = "username" then some u else if k = "password" then some p else none

/-! Concrete data used by the witnesses: the three seeded users of
`create_users.py` (with stand-in hashes) and a few sessions. -/

/-- The seeded store: roles `admin`, `supervisor`, `usuario`. -/
def demoUsers : List UserRecord :=
  [⟨"id-a", "admin", "hashA", "Administrador", "admin@ejemplo.com", "admin"⟩,
   ⟨"id-s", "super1", "hashB", "Supervisor Uno", "super1@ejemplo.com", "supervisor"⟩,
   ⟨"id-u", "usuario1", "hashC", "Usuario Uno", "user1@ejemplo.com", "usuario"⟩]

/-- A session logged in as the standard user. -/
def demoSessionUser : Session := sset emptySession "user_id" "id-u"

/-- A session logged in as the admin. -/
def demoSessionAdmin : Session := sset emptySession "user_id" "id-a"

/-- A session whose `user_id` resolves to no record (dangling reference). -/
def danglingSession : Session := sset emptySession "user_id" "id-zz"

/-- A verifier accepting everything (models a correct password). -/
def verifyYes : Option String → String → Bool := fun _ _ => true

/-- A verifier rejecting everything (models a wrong password). -/
def verifyNo : Option String → String → Bool := fun _ _ => false

/-! Refined embedding of the bcrypt call.  `login` above abstracts
`bcrypt.verify` as a total boolean on the optional secret, which is faithful
for every path that returns a response; but passlib itself raises `TypeError`
when the secret is `None` (its `validate_secret` rejects a non-string), so a
body whose username resolves while the `password` key is missing makes the
handler raise instead of returning.  The definitions below make that
exceptional path explicit. -/

/-- The exception the external library can raise: passlib's
`validate_secret` raises `TypeError` on a `None` secret. -/
inductive PyError where
  | typeError
deriving DecidableEq, Repr

/-- The bcrypt call as Python executes it at line 107: the first argument is
`data.get("password")`, which may be `None`; on `None` the library raises
`TypeError`, and on a string it returns the boolean comparison against the
stored hash. -/
def bcryptVerify (verify : String → String → Bool) :
    Option String → String → Except PyError Bool
  | none, _ => Except.error PyError.typeError
  | some p, h => Except.ok (verify p h)

/-- Lines 85-114 of `main.py` with the exceptional path of the library call
kept: a failed username lookup short-circuits `not user or ...` and answers
401 before the bcrypt call; a resolved username evaluates `bcryptVerify` on
the optional password, propagating the `TypeError` raised on a missing
`password` key; otherwise the handler behaves exactly like `login`. -/
def loginExc (verify : String → String → Bool) (users : List UserRecord)
    (data : String → Option String) (session : Session) :
    Except PyError (Response × List UserRecord × Session) :=
  let username := data "username"
  let password := data "password"
  match find_user_by_username users username with
  | none => Except.ok (Response.mk invalidCredentials 401, users, session)
  | some user =>
    match bcryptVerify verify password user.password with
    | Except.error e => Except.error e
    | Except.ok b =>
      if b then
        Except.ok
          (Response.mk (Body.obj [("message", "Login exitoso"), ("role", user.role)]) 200,
            users, sset session "user_id" user.id)
      else
        Except.ok (Response.mk invalidCredentials 401, users, session)

/-- A string verifier accepting everything. -/
def acceptAll : String → String → Bool := fun _ _ => true

/-- A string verifier rejecting everything. -/
def rejectAll : String → String → Bool := fun _ _ => false

/-! Helper lemmas shared by the claim theorems. -/

/-- Stripping keeps no pair whose key is `password`. -/
theorem safeItems_no_password (u : UserRecord) :
    ∀ kv ∈ safeItems u, kv.1 ≠ "password" := by
  intro kv hkv
  have h := (List.mem_filter.mp hkv).2
  simpa using h

/-- Stripping keeps every pair whose key is not `password`. -/
theorem safeItems_keeps (u : UserRecord) :
    ∀ kv ∈ items u, kv.1 ≠ "password" → kv ∈ safeItems u := by
  intro kv hkv h
  exact List.mem_filter.mpr ⟨hkv, by simpa using h⟩

/-- With unique usernames, the linear scan finds exactly the member carrying
the searched username. -/
theorem find_user_eq_of_mem (users : List UserRecord) (U : UserRecord)
    (hu : usernamesUnique users) (hU : U ∈ users) :
    find_user_by_username users (some U.username) = some U := by
  induction users with
  | nil => cases hU
  | cons a l ih =>
    rw [usernamesUnique, List.pairwise_cons] at hu
    rcases List.mem_cons.mp hU with h | h
    · subst h
      simp [find_user_by_username]
    · have ha : a.username ≠ U.username := hu.1 U h
      have htail : find_user_by_username l (some U.username) = some U := ih hu.2 h
      rw [find_user_by_username, List.find?_cons_of_neg]
      · exact htail
      · simp [ha]

/-- A username carried by no record is not found by the scan. -/
theorem find_user_eq_none (users : List UserRecord) (name : String)
    (h : ∀ u ∈ users, u.username ≠ name) :
    find_user_by_username users (some name) = none := by
  rw [find_user_by_username, List.find?_eq_none]
  intro u hu
  simp [h u hu]

/-- The visibility policy only ever selects from the store, in store order. -/
theorem filter_users_sublist (users : List UserRecord) (p : UserRecord) :
    List.Sublist (filter_users_for_role users p) users := by
  unfold filter_users_for_role
  split
  · exact List.Sublist.refl users
  · split
    · exact List.filter_sublist users
    · exact List.filter_sublist users

/-! Claim theorems. -/

/-- C2: the visibility policy is total and returns the entire store for an
admin principal, every record whose role is not admin for a supervisor, and
exactly the records whose id equals the principal's id for any other role,
with the branches evaluated in the order admin, supervisor, else self-only. -/
theorem visibility_policy_cases (users : List UserRecord) (p : UserRecord) :
    (p.role = "admin" → filter_users_for_role users p = users) ∧
    (p.role = "supervisor" →
      filter_users_for_role users p = users.filter (fun u => u.role != "admin")) ∧
    (p.role ≠ "admin" → p.role ≠ "supervisor" →
      filter_users_for_role users p = users.filter (fun u => u.id == p.id)) := by
  refine ⟨?_, ?_, ?_⟩
  · intro h
    simp [filter_users_for_role, h]
  · intro h
    simp [filter_users_for_role, h]
  · intro h1 h2
    simp [filter_users_for_role, h1, h2]

/-- Witness for C2 at the three seeded principals. -/
theorem visibility_policy_cases_witness :
    filter_users_for_role demoUsers
        ⟨"id-a", "admin", "hashA", "Administrador", "admin@ejemplo.com", "admin"⟩
      = demoUsers ∧
    filter_users_for_role demoUsers
        ⟨"id-s", "super1", "hashB", "Supervisor Uno", "super1@ejemplo.com", "supervisor"⟩
      = demoUsers.filter (fun u => u.role != "admin") ∧
    filter_users_for_role demoUsers
        ⟨"id-u", "usuario1", "hashC", "Usuario Uno", "user1@ejemplo.com", "usuario"⟩
      = demoUsers.filter (fun u => u.id == "id-u") :=
  ⟨(visibility_policy_cases demoUsers _).1 rfl,
   (visibility_policy_cases demoUsers _).2.1 rfl,
   (visibility_policy_cases demoUsers _).2.2 (by decide) (by decide)⟩

/-- C6: logout returns 200 with its message, leaves the session with no key
at all, and a subsequent `me` with the cleared session answers 401. -/
theorem logout_clears_session (users : List UserRecord) (s : Session) :
    (logout users s).1 = Response.mk (Body.obj [("message", "Logout exitoso")]) 200 ∧
    (∀ k, ((logout users s).2.2) k = none) ∧
    (me users ((logout users s).2.2)).1.status = 401 ∧
    (me users ((logout users s).2.2)).1.body = noAutenticado :=
  ⟨rfl, fun _ => rfl, rfl, rfl⟩

/-- C9: none of the four handlers changes the user store. -/
theorem endpoints_preserve_store (verify : Option String → String → Bool)
    (users : List UserRecord) (data : String → Option String) (s : Session) :
    (login verify users data s).2.1 = users ∧
    (logout users s).2.1 = users ∧
    (me users s).2.1 = users ∧
    (list_users users s).2.1 = users := by
  refine ⟨?_, rfl, ?_, ?_⟩
  · cases hf : find_user_by_username users (data "username") with
    | none => simp [login, hf]
    | some user =>
      cases hv : verify (data "password") user.password <;> simp [login, hf, hv]
  · by_cases ht : truthy (s "user_id")
    · cases hf : List.find? (fun u => some u.id == s "user_id") users with
      | none => simp [me, ht, hf]
      | some u => simp [me, ht, hf]
    · simp [me, ht]
  · by_cases ht : truthy (s "user_id")
    · cases hf : List.find? (fun u => some u.id == s "user_id") users with
      | none => simp [list_users, ht, hf]
      | some u => simp [list_users, ht, hf]
    · simp [list_users, ht]

/-- C10 counterexample: login is not total on string-map bodies.  The body
carrying only `username = admin` resolves the username, line 107's
`not user` is false, and the bcrypt call receives `None` for the secret, so
the handler raises `TypeError` instead of returning a response. -/
theorem login_raises_on_missing_password :
    loginExc acceptAll demoUsers
        (fun k => if k = "username" then some "admin" else none) emptySession
      = Except.error PyError.typeError := rfl

/-- C10 amended: a missing `username` key never matches the scan; whenever
the scan fails, login answers 401 with the shared error body, with the
session untouched and the whole result independent of the verifier — the
stored hash is compared only when the username resolves to a record.  Login
is not total, however: when the username resolves but the `password` key is
missing, the bcrypt call raises `TypeError` instead of returning, and with a
password string present it always returns a response. -/
theorem login_short_circuit_on_unresolved (verify verify2 : String → String → Bool)
    (users : List UserRecord) (data : String → Option String) (s : Session) :
    (data "username" = none → find_user_by_username users (data "username") = none) ∧
    (find_user_by_username users (data "username") = none →
      loginExc verify users data s
        = Except.ok (Response.mk invalidCredentials 401, users, s) ∧
      loginExc verify users data s = loginExc verify2 users data s) ∧
    (∀ U, find_user_by_username users (data "username") = some U →
      data "password" = none →
      loginExc verify users data s = Except.error PyError.typeError) ∧
    (∀ U p, find_user_by_username users (data "username") = some U →
      data "password" = some p →
      ∃ out, loginExc verify users data s = Except.ok out) := by
  refine ⟨?_, ?_, ?_, ?_⟩
  · intro h
    rw [h, find_user_by_username, List.find?_eq_none]
    intro u _
    simp
  · intro hf
    constructor <;> simp [loginExc, hf]
  · intro U hU hp
    simp [loginExc, hU, hp, bcryptVerify]
  · intro U p hU hp
    cases hb : verify p U.password with
    | true =>
      exact ⟨(Response.mk (Body.obj [("message", "Login exitoso"), ("role", U.role)]) 200,
          users, sset s "user_id" U.id),
        by simp [loginExc, hU, hp, bcryptVerify, hb]⟩
    | false =>
      exact ⟨(Response.mk invalidCredentials 401, users, s),
        by simp [loginExc, hU, hp, bcryptVerify, hb]⟩

/-- Witness for the amended C10: a body with no keys at all, a body with a
resolving username and no password key, and a full body. -/
theorem login_short_circuit_on_unresolved_witness :
    (loginExc acceptAll demoUsers (fun _ => none) emptySession
       = Except.ok (Response.mk invalidCredentials 401, demoUsers, emptySession) ∧
     loginExc acceptAll demoUsers (fun _ => none) emptySession
       = loginExc rejectAll demoUsers (fun _ => none) emptySession) ∧
    loginExc acceptAll demoUsers
        (fun k => if k = "username" then some "admin" else none) emptySession
      = Except.error PyError.typeError ∧
    ∃ out, loginExc acceptAll demoUsers (mkBody "admin" "x") emptySession
      = Except.ok out := by
  have h1 := login_short_circuit_on_unresolved acceptAll rejectAll demoUsers
    (fun _ => none) emptySession
  have h2 := login_short_circuit_on_unresolved acceptAll rejectAll demoUsers
    (fun k => if k = "username" then some "admin" else none) emptySession
  have h3 := login_short_circuit_on_unresolved acceptAll rejectAll demoUsers
    (mkBody "admin" "x") emptySession
  refine ⟨h1.2.1 (h1.1 rfl), ?_, ?_⟩
  · exact h2.2.2.1
      ⟨"id-a", "admin", "hashA", "Administrador", "admin@ejemplo.com", "admin"⟩ rfl rfl
  · exact h3.2.2.2
      ⟨"id-a", "admin", "hashA", "Administrador", "admin@ejemplo.com", "admin"⟩ "x" rfl rfl

/-- C5: for a registered user whose password verifies against the stored
hash, login returns 200 carrying the user's role, and the resulting session
holds `user_id` equal to the user's id. -/
theorem login_success (verify : Option String → String → Bool)
    (users : List UserRecord) (U : UserRecord) (p : String) (s : Session)
    (hu : usernamesUnique users) (hU : U ∈ users)
    (hp : verify (some p) U.password = true) :
    (login verify users (mkBody U.username p) s).1
      = Response.mk (Body.obj [("message", "Login exitoso"), ("role", U.role)]) 200 ∧
    ((login verify users (mkBody U.username p) s).2.2) "user_id" = some U.id := by
  have hf : find_user_by_username users (some U.username) = some U :=
    find_user_eq_of_mem users U hu hU
  have hm : (mkBody U.username p) "username" = some U.username := rfl
  have hm2 : (mkBody U.username p) "password" = some p := rfl
  constructor
  · simp [login, hm, hm2, hf, hp]
  · simp [login, hm, hm2, hf, hp, sset]

/-- Witness for C5: the seeded standard user with an accepting verifier. -/
theorem login_success_witness :
    (login verifyYes demoUsers (mkBody "usuario1" "userpass") emptySession).1
      = Response.mk (Body.obj [("message", "Login exitoso"), ("role", "usuario")]) 200 ∧
    ((login verifyYes demoUsers (mkBody "usuario1" "userpass") emptySession).2.2) "user_id"
      = some "id-u" :=
  login_success verifyYes demoUsers
    ⟨"id-u", "usuario1", "hashC", "Usuario Uno", "user1@ejemplo.com", "usuario"⟩
    "userpass" emptySession (by decide) (by decide) rfl

/-- C4: a registered user with a rejected password and an unknown username
both receive 401, and the two response payloads are identical. -/
theorem login_failures_indistinguishable (verify : Option String → String → Bool)
    (users : List UserRecord) (U : UserRecord) (p ghost q : String)
    (s1 s2 : Session)
    (hu : usernamesUnique users) (hU : U ∈ users)
    (hp : verify (some p) U.password = false)
    (hg : ∀ u ∈ users, u.username ≠ ghost) :
    (login verify users (mkBody U.username p) s1).1 = Response.mk invalidCredentials 401 ∧
    (login verify users (mkBody ghost q) s2).1 = Response.mk invalidCredentials 401 ∧
    (login verify users (mkBody U.username p) s1).1
      = (login verify users (mkBody ghost q) s2).1 := by
  have hf : find_user_by_username users (some U.username) = some U :=
    find_user_eq_of_mem users U hu hU
  have hn : find_user_by_username users (some ghost) = none :=
    find_user_eq_none users ghost hg
  have h1 : (login verify users (mkBody U.username p) s1).1
      = Response.mk invalidCredentials 401 := by
    have hm : (mkBody U.username p) "username" = some U.username := rfl
    have hm2 : (mkBody U.username p) "password" = some p := rfl
    simp [login, hm, hm2, hf, hp]
  have h2 : (login verify users (mkBody ghost q) s2).1
      = Response.mk invalidCredentials 401 := by
    have hm : (mkBody ghost q) "username" = some ghost := rfl
    simp [login, hm, hn]
  exact ⟨h1, h2, h1.trans h2.symm⟩

/-- Witness for C4: the seeded standard user with a rejecting verifier, and
the unknown username `ghost`. -/
theorem login_failures_indistinguishable_witness :
    (login verifyNo demoUsers (mkBody "usuario1" "wrongpass") emptySession).1
      = Response.mk invalidCredentials 401 ∧
    (login verifyNo demoUsers (mkBody "ghost" "x") emptySession).1
      = Response.mk invalidCredentials 401 ∧
    (login verifyNo demoUsers (mkBody "usuario1" "wrongpass") emptySession).1
      = (login verifyNo demoUsers (mkBody "ghost" "x") emptySession).1 :=
  login_failures_indistinguishable verifyNo demoUsers
    ⟨"id-u", "usuario1", "hashC", "Usuario Uno", "user1@ejemplo.com", "usuario"⟩
    "wrongpass" "ghost" "x" emptySession emptySession
    (by decide) (by decide) rfl (by decide)

/-- C7: session writes of login are atomic — a 401 answer leaves the session
exactly as it was, and a 200 answer changes it only by gaining `user_id`,
set to the id of some store record. -/
theorem login_session_atomic (verify : Option String → String → Bool)
    (users : List UserRecord) (data : String → Option String) (s : Session) :
    ((login verify users data s).1.status = 401 → (login verify users data s).2.2 = s) ∧
    ((login verify users data s).1.status = 200 →
      ∃ U, U ∈ users ∧ ((login verify users data s).2.2) "user_id" = some U.id ∧
        ∀ k, k ≠ "user_id" → ((login verify users data s).2.2) k = s k) := by
  cases hf : find_user_by_username users (data "username") with
  | none =>
    constructor
    · intro _
      simp [login, hf]
    · intro h
      simp [login, hf] at h
  | some user =>
    cases hv : verify (data "password") user.password with
    | false =>
      constructor
      · intro _
        simp [login, hf, hv]
      · intro h
        simp [login, hf, hv] at h
    | true =>
      constructor
      · intro h
        simp [login, hf, hv] at h
      · intro _
        refine ⟨user, List.mem_of_find?_eq_some hf, ?_, ?_⟩
        · simp [login, hf, hv, sset]
        · intro k hk
          simp [login, hf, hv, sset, hk]

/-- Witness for C7: a failing and a succeeding login from the empty session. -/
theorem login_session_atomic_witness :
    (login verifyNo demoUsers (mkBody "admin" "x") emptySession).2.2 = emptySession ∧
    (∃ U, U ∈ demoUsers ∧
      ((login verifyYes demoUsers (mkBody "admin" "x") emptySession).2.2) "user_id"
        = some U.id ∧
      ∀ k, k ≠ "user_id" →
        ((login verifyYes demoUsers (mkBody "admin" "x") emptySession).2.2) k
          = emptySession k) :=
  ⟨(login_session_atomic verifyNo demoUsers (mkBody "admin" "x") emptySession).1 rfl,
   (login_session_atomic verifyYes demoUsers (mkBody "admin" "x") emptySession).2 rfl⟩

/-- C8: a 200 answer of `list_users` is the visibility filter of some store
member, mapped through hash-stripping, and that filter is a sublist of the
store — store order is preserved, nothing is reordered, duplicated or
inserted. -/
theorem list_users_preserves_order (users : List UserRecord) (s : Session)
    (h : (list_users users s).1.status = 200) :
    ∃ p, p ∈ users ∧ List.Sublist (filter_users_for_role users p) users ∧
      (list_users users s).1.body
        = Body.arr ((filter_users_for_role users p).map safeItems) := by
  by_cases ht : truthy (s "user_id")
  · cases hf : List.find? (fun u => some u.id == s "user_id") users with
    | none => simp [list_users, ht, hf] at h
    | some p =>
      refine ⟨p, List.mem_of_find?_eq_some hf, filter_users_sublist users p, ?_⟩
      simp [list_users, ht, hf]
  · simp [list_users, ht] at h

/-- Witness for C8: the admin session over the seeded store. -/
theorem list_users_preserves_order_witness :
    ∃ p, p ∈ demoUsers ∧ List.Sublist (filter_users_for_role demoUsers p) demoUsers ∧
      (list_users demoUsers demoSessionAdmin).1.body
        = Body.arr ((filter_users_for_role demoUsers p).map safeItems) :=
  list_users_preserves_order demoUsers demoSessionAdmin rfl

/-- C1: every 200 answer of `me` is the stripped dictionary of a store
record, and every element of a 200 answer of `list_users` is the stripped
dictionary of a store record; no stripped dictionary carries the `password`
key, and it keeps every other key-value pair of the record. -/
theorem responses_never_contain_hash (users : List UserRecord) (s : Session) :
    ((me users s).1.status = 200 →
      ∃ u, u ∈ users ∧ (me users s).1.body = Body.obj (safeItems u) ∧
        (∀ kv ∈ safeItems u, kv.1 ≠ "password") ∧
        (∀ kv ∈ items u, kv.1 ≠ "password" → kv ∈ safeItems u)) ∧
    ((list_users users s).1.status = 200 →
      ∃ l : List UserRecord, (list_users users s).1.body = Body.arr (l.map safeItems) ∧
        ∀ u ∈ l, u ∈ users ∧
          (∀ kv ∈ safeItems u, kv.1 ≠ "password") ∧
          (∀ kv ∈ items u, kv.1 ≠ "password" → kv ∈ safeItems u)) := by
  constructor
  · intro h
    by_cases ht : truthy (s "user_id")
    · cases hf : List.find? (fun u => some u.id == s "user_id") users with
      | none => simp [me, ht, hf] at h
      | some u =>
        refine ⟨u, List.mem_of_find?_eq_some hf, ?_, safeItems_no_password u,
          safeItems_keeps u⟩
        simp [me, ht, hf]
    · simp [me, ht] at h
  · intro h
    by_cases ht : truthy (s "user_id")
    · cases hf : List.find? (fun u => some u.id == s "user_id") users with
      | none => simp [list_users, ht, hf] at h
      | some p =>
        refine ⟨filter_users_for_role users p, ?_, ?_⟩
        · simp [list_users, ht, hf]
        · intro u hu
          exact ⟨(filter_users_sublist users p).subset hu, safeItems_no_password u,
            safeItems_keeps u⟩
    · simp [list_users, ht] at h

/-- Witness for C1: the standard user's session over the seeded store. -/
theorem responses_never_contain_hash_witness :
    (∃ u, u ∈ demoUsers ∧
      (me demoUsers demoSessionUser).1.body = Body.obj (safeItems u) ∧
      (∀ kv ∈ safeItems u, kv.1 ≠ "password") ∧
      (∀ kv ∈ items u, kv.1 ≠ "password" → kv ∈ safeItems u)) ∧
    (∃ l : List UserRecord,
      (list_users demoUsers demoSessionUser).1.body = Body.arr (l.map safeItems) ∧
      ∀ u ∈ l, u ∈ demoUsers ∧
        (∀ kv ∈ safeItems u, kv.1 ≠ "password") ∧
        (∀ kv ∈ items u, kv.1 ≠ "password" → kv ∈ safeItems u)) :=
  ⟨(responses_never_contain_hash demoUsers demoSessionUser).1 rfl,
   (responses_never_contain_hash demoUsers demoSessionUser).2 rfl⟩

/-- C3 counterexample: both failure causes of `me` answer 401, but the error
payloads differ — `No autenticado` for a session without `user_id` against
`Usuario no encontrado` for a dangling `user_id` — so the two causes are
distinguishable by the caller, contrary to the claim. -/
theorem me_error_payloads_differ :
    (me demoUsers emptySession).1.status = 401 ∧
    (me demoUsers danglingSession).1.status = 401 ∧
    (me demoUsers emptySession).1.body ≠ (me demoUsers danglingSession).1.body := by
  refine ⟨rfl, rfl, ?_⟩
  decide

/-- C3 amended: in both `me` and `list_users`, a missing (or falsy)
`user_id` answers 401 with body `No autenticado`, and a non-resolving
`user_id` answers 401 with body `Usuario no encontrado`; the status and the
per-cause payloads agree across the two endpoints, but the two causes carry
different payloads. -/
theorem principal_resolution_errors (users : List UserRecord) (s : Session) :
    (truthy (s "user_id") = false →
      (me users s).1 = Response.mk noAutenticado 401 ∧
      (list_users users s).1 = Response.mk noAutenticado 401) ∧
    (truthy (s "user_id") = true →
      List.find? (fun u => some u.id == s "user_id") users = none →
      (me users s).1 = Response.mk usuarioNoEncontrado 401 ∧
      (list_users users s).1 = Response.mk usuarioNoEncontrado 401) ∧
    noAutenticado ≠ usuarioNoEncontrado := by
  refine ⟨?_, ?_, by decide⟩
  · intro h
    exact ⟨by simp [me, h], by simp [list_users, h]⟩
  · intro h hf
    exact ⟨by simp [me, h, hf], by simp [list_users, h, hf]⟩

/-- Witness for the amended C3: the empty and the dangling session. -/
theorem principal_resolution_errors_witness :
    ((me demoUsers emptySession).1 = Response.mk noAutenticado 401 ∧
     (list_users demoUsers emptySession).1 = Response.mk noAutenticado 401) ∧
    ((me demoUsers danglingSession).1 = Response.mk usuarioNoEncontrado 401 ∧
     (list_users demoUsers danglingSession).1 = Response.mk usuarioNoEncontrado 401) :=
  ⟨(principal_resolution_errors demoUsers emptySession).1 rfl,
   (principal_resolution_errors demoUsers danglingSession).2.1 rfl (by decide)⟩

end LoginApp
